import Mathlib

/-!
Shallow embedding of the jsonquery repository.

The repository contains two variants of the same JSON-to-SQLAlchemy-predicate
compiler:
* `Jq` embeds src/jsonquery.py (functions `jsonquery`, `_build`,
  `_validate_query_constraints`, `_build_sql_sequence`, `_build_sql_unary`,
  `_build_column` and the `OPERATORS` registry);
* `Bld` embeds the `Builder` class of src/__init__.py together with the
  exception classes of src/exceptions.py.

JSON input (already decoded, as the spec requires) is modelled by the dynamic
value type `J`; the opaque backend predicates produced via sqlalchemy are
modelled by the free term type `Pred`; Python exceptions are modelled by the
explicit error types `JQErr` and `BErr`, with one constructor per distinct
raise site or exception class.  Both compilers carry a fuel argument that
models the Python call stack: one unit of fuel is consumed per `_build` frame.
The jsonquery variant only ever recurses into strict subterms, so any fuel
larger than the node count of the input is enough; the Builder variant can
genuinely fail to terminate (see `Bld._build_sql_unary`), which the fuel makes
observable as a `none` result.
-/

namespace Jsonquery

/-- JSON-shaped dynamic values as decoded Python objects: `None`, numbers,
strings, lists and dicts.  Dicts are association lists; every dict appearing in
this development has distinct keys, so the first-match lookup below agrees with
Python dict lookup. -/
inductive J where
  | null
  | num (n : Int)
  | str (s : String)
  | arr (xs : List J)
  | obj (fields : List (String × J))

mutual

/-- Python `==` on decoded JSON values (scalars, lists, dicts).  Dict equality
is compared field-by-field in order; Python dict equality is order-insensitive,
but the only membership tests the sources perform compare scalars, where the
two notions agree. -/
def J.beq : J → J → Bool
  | .null, .null => true
  | .num a, .num b => a == b
  | .str a, .str b => a == b
  | .arr a, .arr b => J.beqList a b
  | .obj a, .obj b => J.beqFields a b
  | _, _ => false

/-- Elementwise `J.beq` on lists. -/
def J.beqList : List J → List J → Bool
  | [], [] => true
  | a :: la, b :: lb => J.beq a b && J.beqList la lb
  | _, _ => false

/-- Elementwise `J.beq` on dict fields. -/
def J.beqFields : List (String × J) → List (String × J) → Bool
  | [], [] => true
  | (ka, va) :: la, (kb, vb) :: lb => ka == kb && J.beq va vb && J.beqFields la lb
  | _, _ => false

end

instance : BEq J := ⟨J.beq⟩

/-- First-match association-list lookup (Python dict lookup; the dicts used
here have distinct keys). -/
def lookupField : List (String × J) → String → Option J
  | [], _ => none
  | (k, v) :: rest, key => if k == key then some v else lookupField rest key

/-- Result of Python subscription `node[key]` with a string key. -/
inductive Ix where
  | found (v : J)
  | missingKey
  | badIndex

/-- Python `node[key]` for a string key: dict lookup, `KeyError` when the key
is absent, `TypeError` when `node` is not a dict (a list, string, number or
`None` subscripted with a string key). -/
def jIndex (node : J) (key : String) : Ix :=
  match node with
  | .obj fields =>
    match lookupField fields key with
    | some v => .found v
    | none => .missingKey
  | _ => .badIndex

/-- Python iteration `for x in v`: lists yield their elements, strings yield
their characters as one-character strings, dicts yield their keys; numbers and
`None` are not iterable (`TypeError`). -/
def jIter : J → Option (List J)
  | .arr xs => some xs
  | .str s => some (s.toList.map fun c => J.str (String.mk [c]))
  | .obj fields => some (fields.map fun kv => J.str kv.1)
  | _ => none

/-- The test `isinstance(value, collections.Sequence) and not a string` used by
both variants (src/__init__.py names it `_is_real_sequence`, jsonquery.py
inlines it in `_validate_query_constraints`): true exactly for lists. -/
def _is_real_sequence : J → Bool
  | .arr _ => true
  | _ => false

/-- Python `unicode(value)` on the scalars that occur in this development.
Lists and dicts are only ever passed through `_unicodify`, which handles the
list case separately; their `repr`-style rendering is never exercised. -/
def pyStr : J → String
  | .null => "None"
  | .num n => toString n
  | .str s => s
  | .arr _ => "<list>"
  | .obj _ => "<dict>"

mutual

/-- `_unicodify` from src/__init__.py: maps over real sequences, converts
everything else to a unicode string. -/
def _unicodify : J → J
  | .arr xs => .arr (_unicodifyList xs)
  | .null => .str (pyStr .null)
  | .num n => .str (pyStr (.num n))
  | .str s => .str s
  | .obj fields => .str (pyStr (.obj fields))

/-- Elementwise `_unicodify`. -/
def _unicodifyList : List J → List J
  | [] => []
  | x :: xs => _unicodify x :: _unicodifyList xs

end

/-- Query limits.  Python treats falsey limits (`None`, `0`) as "no limit", so a
limit is a `Nat` with `0` meaning unbounded, exactly matching the
`if max_depth and ...` truthiness guards in both sources. -/
structure Constraints where
  max_breadth : Nat
  max_depth : Nat
  max_elements : Nat

/-- The default query constraints shared by both variants: breadth and depth
unbounded (`None`), elements limited to 64. -/
def DEFAULT_QUERY_CONSTRAINTS : Constraints := ⟨0, 0, 64⟩

/-- Opaque backend predicates: the terms the compilers hand to sqlalchemy.
`and_`/`or_`/`not_` are the logical combinators, `cmp` is
`OPERATORS[op](column, value)` / `NUMERIC_OPERATORS[op](column, value)`, and
`strMatch` is `column.like(pattern)` / `column.ilike(pattern)` as produced by
the Builder string path. -/
inductive Pred where
  | and_ (ps : List Pred)
  | or_ (ps : List Pred)
  | not_ (p : Pred)
  | cmp (column : String) (op : String) (value : J)
  | strMatch (column : String) (caseFn : String) (pattern : J)

mutual

/-- Number of nodes of a compiled predicate tree.  Each `_build` frame of the
jsonquery variant contributes exactly one predicate node, so this doubles as
the node count of the successfully compiled filter tree. -/
def predSize : Pred → Nat
  | .and_ ps => 1 + predSizeList ps
  | .or_ ps => 1 + predSizeList ps
  | .not_ p => 1 + predSize p
  | .cmp _ _ _ => 1
  | .strMatch _ _ _ => 1

/-- Sum of `predSize` over a list. -/
def predSizeList : List Pred → Nat
  | [] => 0
  | p :: ps => predSize p + predSizeList ps

end

/-- The `for value in node['value']: subquery, count = build(...);
subqueries.append(subquery)` loop shared by both `_build_sql_sequence`
implementations: builds each child in input order, threading the element count
left to right, and accumulates the child predicates by appending, exactly like
the Python list `append`. -/
def seq_loop {E : Type} (build : J → Nat → Nat → Option (Except E (Pred × Nat))) :
    List J → List Pred → Nat → Nat → Option (Except E (List Pred × Nat))
  | [], subqueries, count, _ => some (.ok (subqueries, count))
  | x :: xs, subqueries, count, depth =>
    match build x count depth with
    | none => none
    | some (.error e) => some (.error e)
    | some (.ok (p, c)) => seq_loop build xs (subqueries ++ [p]) c depth

/-- The `return func(*subqueries), count` tail of the sequence builders:
combine the child predicates with the `and_`/`or_` combinator, propagating
errors and exhausted fuel. -/
def seqFinish {E : Type} (func : List Pred → Pred) :
    Option (Except E (List Pred × Nat)) → Option (Except E (Pred × Nat))
  | none => none
  | some (.error e) => some (.error e)
  | some (.ok (ps, c)) => some (.ok (func ps, c))

/-- Specification-side rendering of "the N children are individually compiled,
in input order, with the element count threaded left to right": compile the
head, then the tail from the head's returned count, and cons the results.  The
theorems for claim C5 equate the compilers' accumulator loops with this. -/
def compileEach {E : Type} (build : J → Nat → Nat → Option (Except E (Pred × Nat))) :
    List J → Nat → Nat → Option (Except E (List Pred × Nat))
  | [], count, _ => some (.ok ([], count))
  | x :: xs, count, depth =>
    match build x count depth with
    | none => none
    | some (.error e) => some (.error e)
    | some (.ok (p, c)) =>
      match compileEach build xs c depth with
      | none => none
      | some (.error e) => some (.error e)
      | some (.ok (ps, c2)) => some (.ok (p :: ps, c2))

/-! The `Jq` namespace embeds src/jsonquery.py. -/

namespace Jq

/-- Python exceptions that src/jsonquery.py can raise during a build, one
constructor per distinct raise site.  The three limit errors are the
`ValueError` raises of `_validate_query_constraints`, carrying the limit that
was formatted into the message. -/
inductive JQErr where
  | keyError (k : String)
  | typeErrorIndex
  | typeErrorIter
  | typeErrorAttrName
  | attributeError (column : String)
  | operatorLookup (op : J)
  | depthLimit (m : Nat)
  | breadthLimit (m : Nat)
  | elementsLimit (m : Nat)

/-- `node[key]` in src/jsonquery.py, with its possible exceptions. -/
def jqGet (node : J) (key : String) : Except JQErr J :=
  match jIndex node key with
  | .found v => .ok v
  | .missingKey => .error (.keyError key)
  | .badIndex => .error .typeErrorIndex

/-- The opstrings registered in the module-level `OPERATORS` table of
src/jsonquery.py: the six binary comparisons plus the `like`, `ilike` and
`in_` attribute operators. -/
def OPERATORS : List String := ["<", "<=", "!=", "==", ">=", ">", "like", "ilike", "in_"]

/-- `_validate_query_constraints` from src/jsonquery.py: depth check, then
breadth check on the length of a real-sequence `value` (1 otherwise), then the
element check on a local copy of `count` increased by the breadth.  The `count`
mutation is local to this function, as in the source. -/
def _validate_query_constraints (value : J) (count depth : Nat) (c : Constraints) :
    Except JQErr Unit :=
  if c.max_depth ≠ 0 ∧ depth > c.max_depth then .error (.depthLimit c.max_depth)
  else
    let element_breadth := match value with | .arr xs => xs.length | _ => 1
    if c.max_breadth ≠ 0 ∧ element_breadth > c.max_breadth then
      .error (.breadthLimit c.max_breadth)
    else
      let count := count + element_breadth
      if c.max_elements ≠ 0 ∧ count > c.max_elements then
        .error (.elementsLimit c.max_elements)
      else .ok ()

/-- `_build_column` from src/jsonquery.py: resolve `node['column']` on the
model (`getattr` raises `TypeError` for a non-string name and
`AttributeError` for an unknown column), fetch operator and value, and apply
the registered operator function, which yields the opaque criterion
`OPERATORS[op](column, value)`.  An operator missing from the registry is a
`KeyError` (or a `TypeError` for an unhashable operator value); both abort the
build and are modelled by `operatorLookup`.  The model is the list of its
column names. -/
def _build_column (model : List String) (node : J) : Except JQErr Pred :=
  match jqGet node "column" with
  | .error e => .error e
  | .ok column =>
    match column with
    | .str s =>
      if model.contains s then
        match jqGet node "operator" with
        | .error e => .error e
        | .ok op =>
          match jqGet node "value" with
          | .error e => .error e
          | .ok value =>
            match op with
            | .str o =>
              if OPERATORS.contains o then .ok (.cmp s o value)
              else .error (.operatorLookup (.str o))
            | other => .error (.operatorLookup other)
      else .error (.attributeError s)
    | _ => .error .typeErrorAttrName

/-- `_build_sql_sequence` from src/jsonquery.py: iterate `node['value']`
(already fetched by `_build`), building each child with the threaded count and
the shared depth, then combine with `and_`/`or_` in input order. -/
def _build_sql_sequence (build : J → Nat → Nat → Option (Except JQErr (Pred × Nat)))
    (value : J) (count depth : Nat) (func : List Pred → Pred) :
    Option (Except JQErr (Pred × Nat)) :=
  match jIter value with
  | none => some (.error .typeErrorIter)
  | some xs => seqFinish func (seq_loop build xs [] count depth)

/-- `_build_sql_unary` from src/jsonquery.py: recurse once on `node['value']`
(already fetched by `_build`) and wrap the result in `not_`. -/
def _build_sql_unary (build : J → Nat → Nat → Option (Except JQErr (Pred × Nat)))
    (value : J) (count depth : Nat) : Option (Except JQErr (Pred × Nat)) :=
  match build value count depth with
  | none => none
  | some (.error e) => some (.error e)
  | some (.ok (p, c)) => some (.ok (.not_ p, c))

/-- `_build` from src/jsonquery.py: increment count and depth for this node,
fetch `node['value']`, run the constraint validation, then dispatch on
`node['operator']` against the fixed logical-operator strings, falling through
to the column builder.  The fuel counts `_build` stack frames; children run at
one unit less. -/
def _build (model : List String) (constraints : Constraints) :
    Nat → J → Nat → Nat → Option (Except JQErr (Pred × Nat))
  | 0, _, _, _ => none
  | fuel + 1, node, count, depth =>
    let count := count + 1
    let depth := depth + 1
    match jqGet node "value" with
    | .error e => some (.error e)
    | .ok value =>
      match _validate_query_constraints value count depth constraints with
      | .error e => some (.error e)
      | .ok _ =>
        match jqGet node "operator" with
        | .error e => some (.error e)
        | .ok op =>
          if op == J.str "and" then
            _build_sql_sequence (_build model constraints fuel) value count depth .and_
          else if op == J.str "or" then
            _build_sql_sequence (_build model constraints fuel) value count depth .or_
          else if op == J.str "not" then
            _build_sql_unary (_build model constraints fuel) value count depth
          else
            match _build_column model node with
            | .error e => some (.error e)
            | .ok p => some (.ok (p, count))

end Jq

/-! The `Bld` namespace embeds the `Builder` class of src/__init__.py and the
exception classes of src/exceptions.py. -/

namespace Bld

/-- Python exceptions for the Builder variant, one constructor per distinct
raise site or exception class.  `valueError` carries the literal message of
the corresponding `raise ValueError(...)` in `Builder.__init__` (note that the
duplicate-constraint message calls `.format` on a string with no placeholder,
so the message stays literal).  `nullError` is the
`ValueError('Column "{}" cannot be null.')` of `_validate_nullable`, carrying
the formatted column.  The three `interrogate*` errors are the
`InterrogateException` raises of `_validate_query_constraints`.
`nameError` models the `NameError` for the undefined name `_unicodeify` in
`STRING_MATCH_FUNCS['match-suffix']`.  `illegalConstraint` models
`IllegalConstraintException` from src/exceptions.py; no code under src/ ever
raises it. -/
inductive BErr where
  | valueError (msg : String)
  | nullError (column : String)
  | keyError (k : String)
  | typeErrorIndex
  | typeErrorIter
  | typeErrorAttrName
  | typeErrorSequence
  | typeErrorConcat
  | attributeError
  | unboundLocal
  | caseLookup
  | matchLookup
  | numericLookup
  | nameError (n : String)
  | interrogateDepth (m : Nat)
  | interrogateBreadth (m : Nat)
  | interrogateElements (m : Nat)
  | illegalConstraint

/-- `node[key]` in src/__init__.py, with its possible exceptions. -/
def bGet (node : J) (key : String) : Except BErr J :=
  match jIndex node key with
  | .found v => .ok v
  | .missingKey => .error (.keyError key)
  | .badIndex => .error .typeErrorIndex

/-- Keys of the `NUMERIC_OPERATORS` table of src/__init__.py. -/
def NUMERIC_OPERATORS : List String := ["<", "<=", "!=", "==", ">=", ">"]

/-- The `CASE_OPERATORS` table of src/__init__.py: maps the JSON `case` field
to the column attribute used for matching; anything else is a failed dict
lookup. -/
def CASE_OPERATORS : J → Option String
  | .str "strict" => some "like"
  | .str "ignore" => some "ilike"
  | _ => none

/-- Python `+` as used by the search-string transforms: string concatenation,
list concatenation, `TypeError` otherwise. -/
def pyAdd : J → J → Except BErr J
  | .str a, .str b => .ok (.str (a ++ b))
  | .arr a, .arr b => .ok (.arr (a ++ b))
  | _, _ => .error .typeErrorConcat

/-- The `STRING_MATCH_FUNCS` table of src/__init__.py, looked up by operator
string.  `match-prefix` computes `_unicodify(s + '%')`; `match-any` computes
`_unicodify('%' + s + '%')`; `match-strict` returns the value unmodified.
`match-suffix` calls `_unicodeify('%' + s)`, but `_unicodeify` is an undefined
name (the module only defines `_unicodify`), so invoking it raises `NameError`
before the concatenation result is used; Python evaluates the argument
`'%' + s` first, so a concatenation `TypeError` would win, and for a string
value the lookup of the undefined global fires. -/
def STRING_MATCH_FUNCS (op : String) : Option (J → Except BErr J) :=
  if op == "match-prefix" then
    some fun s => (pyAdd s (.str "%")).map _unicodify
  else if op == "match-suffix" then
    some fun s => (pyAdd (.str "%") s).bind fun _ => .error (.nameError "_unicodeify")
  else if op == "match-any" then
    some fun s => ((pyAdd (.str "%") s).bind fun t => pyAdd t (.str "%")).map _unicodify
  else if op == "match-strict" then
    some fun s => .ok s
  else none

/-- The normalized state of a constructed `Builder` from src/__init__.py: the
model (as its list of column names), the alias lists for the three logical
roles, the three type-constraint column lists (unicodified, kept as JSON
values since membership tests compare them with JSON node fields), and the
query constraints. -/
structure Builder where
  model : List String
  andAliases : List J
  orAliases : List J
  notAliases : List J
  stringCols : List J
  numericCols : List J
  nullableCols : List J
  qc : Constraints

/-- The `max_breadth` property. -/
def Builder.max_breadth (b : Builder) : Nat := b.qc.max_breadth

/-- The `max_depth` property. -/
def Builder.max_depth (b : Builder) : Nat := b.qc.max_depth

/-- The `max_elements` property. -/
def Builder.max_elements (b : Builder) : Nat := b.qc.max_elements

/-- The `if _is_real_sequence(v): list(v) else [v]` normalization applied to
each alias list and each (already unicodified) type-constraint list. -/
def asList (v : J) : List J :=
  match v with
  | .arr xs => xs
  | other => [other]

/-- `Builder.__init__` from src/__init__.py.  Checks run in source order:
missing model raises `ValueError('Must provide a valid model.')`; a missing
`and`/`or`/`not` key raises `ValueError` with the source's (misspelt) message;
each of the `string`/`numeric`/`nullable` keys is fetched (a missing key is a
`KeyError`, not a `ValueError`) and unicodified; a column in both the string
and numeric sets raises `ValueError('Specified two type constraints for the
following: ')`.  An absent `query_constraints` dict means the defaults
(breadth/depth unbounded, elements 64).  Note the code never checks that an
alias list is non-empty: `{'and': []}` passes. -/
def Builder.init (model : Option (List String)) (operators : List (String × J))
    (type_constraints : List (String × J)) (query_constraints : Option Constraints) :
    Except BErr Builder :=
  match model with
  | none => .error (.valueError "Must provide a valid model.")
  | some m =>
    match lookupField operators "and", lookupField operators "or",
        lookupField operators "not" with
    | some andV, some orV, some notV =>
      (match lookupField type_constraints "string" with
      | none => .error (.keyError "string")
      | some sv =>
        match lookupField type_constraints "numeric" with
        | none => .error (.keyError "numeric")
        | some nv =>
          match lookupField type_constraints "nullable" with
          | none => .error (.keyError "nullable")
          | some uv =>
            let sCols := asList (_unicodify sv)
            let nCols := asList (_unicodify nv)
            let uCols := asList (_unicodify uv)
            if sCols.any (fun x => nCols.contains x) then
              .error (.valueError "Specified two type constraints for the following: ")
            else
              .ok ⟨m, asList andV, asList orV, asList notV, sCols, nCols, uCols,
                query_constraints.getD DEFAULT_QUERY_CONSTRAINTS⟩)
    | _, _, _ => .error (.valueError "Must specifiy aliases for all three logical operators.")

/-- `Builder._validate_query_constraints` from src/__init__.py: increments its
local `depth` copy before the depth check, runs the breadth check and the
extra `count += len(value)` only for real-sequence values, then `count += 1`
and the element check.  Only the unary and column builders call this; the
sequence builder does not. -/
def _validate_query_constraints (b : Builder) (value : J) (count depth : Nat) :
    Except BErr Unit :=
  let depth := depth + 1
  if b.max_depth ≠ 0 ∧ depth > b.max_depth then .error (.interrogateDepth b.max_depth)
  else
    match value with
    | .arr xs =>
      if b.max_breadth ≠ 0 ∧ xs.length > b.max_breadth then
        .error (.interrogateBreadth b.max_breadth)
      else
        let count := count + xs.length + 1
        if b.max_elements ≠ 0 ∧ count > b.max_elements then
          .error (.interrogateElements b.max_elements)
        else .ok ()
    | _ =>
      let count := count + 1
      if b.max_elements ≠ 0 ∧ count > b.max_elements then
        .error (.interrogateElements b.max_elements)
      else .ok ()

/-- `Builder._validate_nullable(column, value)` from src/__init__.py: raises
`ValueError` when `value` is `None` and `column` is not in the nullable set. -/
def _validate_nullable (b : Builder) (column value : J) : Except BErr Unit :=
  let nullable := b.nullableCols.contains column
  if value == J.null && !nullable then .error (.nullError (pyStr column)) else .ok ()

/-- `Builder._build_column_string` from src/__init__.py, in source order:
increment count and depth; fetch operator, case, column and value; validate
the query constraints against the value; then call
`_validate_nullable(value, column)` — the source swaps the two arguments, so
the check tests whether the JSON value is a known nullable column name and
whether the column name is `None`, which never raises for a string column
name.  Then `getattr(model, column, None)` (TypeError for a non-string name),
the `CASE_OPERATORS` lookup, `getattr(col, case_func)` (AttributeError when
the column resolved to the `None` default), the `STRING_MATCH_FUNCS` lookup,
the search-string transform, and the final `op(search)` predicate. -/
def _build_column_string (b : Builder) (node : J) (count depth : Nat) :
    Except BErr (Pred × Nat) :=
  let count := count + 1
  let _depth := depth + 1
  match bGet node "operator" with
  | .error e => .error e
  | .ok op =>
    match bGet node "case" with
    | .error e => .error e
    | .ok caseV =>
      match bGet node "column" with
      | .error e => .error e
      | .ok column =>
        match bGet node "value" with
        | .error e => .error e
        | .ok value =>
          match _validate_query_constraints b value count _depth with
          | .error e => .error e
          | .ok _ =>
            match _validate_nullable b value column with
            | .error e => .error e
            | .ok _ =>
              match column with
              | .str colName =>
                let col : Option String :=
                  if b.model.contains colName then some colName else none
                match CASE_OPERATORS caseV with
                | none => .error .caseLookup
                | some case_func =>
                  match col with
                  | none => .error .attributeError
                  | some resolved =>
                    match (match op with | .str o => STRING_MATCH_FUNCS o | _ => none) with
                    | none => .error .matchLookup
                    | some search_func =>
                      match search_func value with
                      | .error e => .error e
                      | .ok search => .ok (.strMatch resolved case_func search, count)
              | _ => .error .typeErrorAttrName

/-- `Builder._build_column_numeric` from src/__init__.py, in source order:
increment count and depth; fetch operator, column and value; validate the
query constraints; call `_validate_nullable(column, value)` (correct argument
order here); look up the numeric operator (`KeyError` when unknown); resolve
the column with `getattr(model, column)` with no default (`AttributeError`
when absent, `TypeError` for a non-string name); produce the comparison. -/
def _build_column_numeric (b : Builder) (node : J) (count depth : Nat) :
    Except BErr (Pred × Nat) :=
  let count := count + 1
  let _depth := depth + 1
  match bGet node "operator" with
  | .error e => .error e
  | .ok op =>
    match bGet node "column" with
    | .error e => .error e
    | .ok column =>
      match bGet node "value" with
      | .error e => .error e
      | .ok value =>
        match _validate_query_constraints b value count _depth with
        | .error e => .error e
        | .ok _ =>
          match _validate_nullable b column value with
          | .error e => .error e
          | .ok _ =>
            match (match op with
              | .str o => if NUMERIC_OPERATORS.contains o then some o else none
              | _ => none) with
            | none => .error .numericLookup
            | some o =>
              match column with
              | .str colName =>
                if b.model.contains colName then .ok (.cmp colName o value, count)
                else .error .attributeError
              | _ => .error .typeErrorAttrName

/-- `Builder._build_column` from src/__init__.py: dispatch on the column's
membership in the string or numeric constraint lists.  When the column is in
neither, the local `build` variable is never assigned and the call raises
`UnboundLocalError`. -/
def _build_column (b : Builder) (node : J) (count depth : Nat) :
    Except BErr (Pred × Nat) :=
  match bGet node "column" with
  | .error e => .error e
  | .ok column =>
    if b.stringCols.contains column then _build_column_string b node count depth
    else if b.numericCols.contains column then _build_column_numeric b node count depth
    else .error .unboundLocal

/-- `Builder._build_sql_sequence` from src/__init__.py: increment count and
depth, iterate `node['value']` building each child with the threaded count,
and combine with the `and_`/`or_` combinator.  Note that, unlike the unary and
column builders, it never calls `_validate_query_constraints`. -/
def _build_sql_sequence (build : J → Nat → Nat → Option (Except BErr (Pred × Nat)))
    (node : J) (count depth : Nat) (func : List Pred → Pred) :
    Option (Except BErr (Pred × Nat)) :=
  let count := count + 1
  let depth := depth + 1
  match bGet node "value" with
  | .error e => some (.error e)
  | .ok value =>
    match jIter value with
    | none => some (.error .typeErrorIter)
    | some xs => seqFinish func (seq_loop build xs [] count depth)

/-- `Builder._build_sql_unary` from src/__init__.py: increment count and
depth, fetch `node['value']`, validate the query constraints against it,
reject a real-sequence value with
`TypeError('Cannot compare a column to a sequence')` — and then recurse on
`node` itself, not on `value` (line 259 of the source: `self._build(node,
count, depth)`), which re-dispatches the same NOT node forever. -/
def _build_sql_unary (b : Builder) (build : J → Nat → Nat → Option (Except BErr (Pred × Nat)))
    (node : J) (count depth : Nat) : Option (Except BErr (Pred × Nat)) :=
  let count := count + 1
  let depth := depth + 1
  match bGet node "value" with
  | .error e => some (.error e)
  | .ok value =>
    match _validate_query_constraints b value count depth with
    | .error e => some (.error e)
    | .ok _ =>
      if _is_real_sequence value then some (.error .typeErrorSequence)
      else
        match build node count depth with
        | none => none
        | some (.error e) => some (.error e)
        | some (.ok (p, c)) => some (.ok (.not_ p, c))

/-- `Builder._build` from src/__init__.py: fetch `node['operator']` and
dispatch on the configured alias lists, falling through to the column
builder.  No count/depth increment and no validation happen here.  The fuel
counts `_build` stack frames; this variant can loop through
`_build_sql_unary`, which shows up as a `none` result for every fuel. -/
def _build (b : Builder) : Nat → J → Nat → Nat → Option (Except BErr (Pred × Nat))
  | 0, _, _, _ => none
  | fuel + 1, node, count, depth =>
    match bGet node "operator" with
    | .error e => some (.error e)
    | .ok op =>
      if b.andAliases.contains op then
        _build_sql_sequence (_build b fuel) node count depth .and_
      else if b.orAliases.contains op then
        _build_sql_sequence (_build b fuel) node count depth .or_
      else if b.notAliases.contains op then
        _build_sql_unary b (_build b fuel) node count depth
      else
        match _build_column b node count depth with
        | .error e => some (.error e)
        | .ok r => some (.ok r)

end Bld

/-! Concrete fixtures used by the claim theorems.  The model and the
type/nullable constraint sets follow the `User` fixture of
src/tests/builder_tests.py: string columns `name`, `email`; numeric columns
`age`, `height`; nullable columns `email`, `height`. -/

/-- The column names of the `User` model fixture. -/
def userModel : List String := ["id", "name", "email", "age", "height"]

/-- All three limits unbounded (Python `None`/`0`). -/
def noLimits : Constraints := ⟨0, 0, 0⟩

/-- The comparison node `{column: 'age', value: 10, operator: '=='}`. -/
def leafAge10 : J := .obj [("column", .str "age"), ("value", .num 10), ("operator", .str "==")]

/-- A logical AND node with the given children. -/
def andNode (xs : List J) : J := .obj [("operator", .str "and"), ("value", .arr xs)]

/-- A logical OR node with the given children. -/
def orNode (xs : List J) : J := .obj [("operator", .str "or"), ("value", .arr xs)]

/-- A logical NOT node with the given payload. -/
def notNode (v : J) : J := .obj [("operator", .str "not"), ("value", v)]

/-- A Builder with the test-suite constraint sets, lowercase logical aliases
and the given query constraints. -/
def bCfg (qc : Constraints) : Bld.Builder :=
  ⟨userModel, [.str "and"], [.str "or"], [.str "not"],
   [.str "name", .str "email"], [.str "age", .str "height"],
   [.str "email", .str "height"], qc⟩

/-- A chain of `m` nested single-child AND nodes around `base`. -/
def chainOf (base : J) : Nat → J
  | 0 => base
  | m + 1 => andNode [chainOf base m]

/-- The predicate produced by compiling `chainOf base m` when `base` compiles
to `p`: `m` nested singleton conjunctions around `p`. -/
def nestAnd (p : Pred) : Nat → Pred
  | 0 => p
  | m + 1 => .and_ [nestAnd p m]

/-- A string comparison node on the `name` column with the given operator and
case mode, matching against the value `'World'`. -/
def strNode (op caseMode : String) : J :=
  .obj [("column", .str "name"), ("operator", .str op), ("case", .str caseMode),
        ("value", .str "World")]

/-- `{column: 'name', operator: 'match-strict', case: 'strict', value: null}`:
a null value for the non-nullable string column `name`. -/
def strNullNode : J :=
  .obj [("column", .str "name"), ("operator", .str "match-strict"),
        ("case", .str "strict"), ("value", .null)]

/-- `{column: 'age', operator: '==', value: null}`: a null value for the
non-nullable numeric column `age`. -/
def numNullNode : J :=
  .obj [("column", .str "age"), ("operator", .str "=="), ("value", .null)]

/-- `{column: 'age', operator: '<>', value: null}`: a null value for the
non-nullable numeric column `age` with an unrecognized operator. -/
def numNullBadOp : J :=
  .obj [("column", .str "age"), ("operator", .str "<>"), ("value", .null)]

/-- `{column: 'height', operator: '==', value: null}`: a null value for the
nullable numeric column `height`. -/
def numNullNullable : J :=
  .obj [("column", .str "height"), ("operator", .str "=="), ("value", .null)]

/-- The valid operator alias table of src/tests/builder_tests.py, with
lowercase alias strings. -/
def goodOps : List (String × J) :=
  [("and", .arr [.str "and"]), ("or", .arr [.str "or"]), ("not", .arr [.str "not"])]

/-- An operator table missing the `not` key. -/
def opsMissingNot : List (String × J) :=
  [("and", .arr [.str "and"]), ("or", .arr [.str "or"])]

/-- An operator table whose `and` alias list is empty. -/
def opsEmptyAnd : List (String × J) :=
  [("and", .arr []), ("or", .arr [.str "or"]), ("not", .arr [.str "not"])]

/-- The valid type-constraint table of src/tests/builder_tests.py. -/
def goodTcs : List (String × J) :=
  [("string", .arr [.str "name", .str "email"]),
   ("numeric", .arr [.str "age", .str "height"]),
   ("nullable", .arr [.str "email", .str "height"])]

/-- The duplicate type-constraint table of src/tests/builder_tests.py:
`email` appears in both the string and the numeric sets. -/
def dupTcs : List (String × J) :=
  [("string", .arr [.str "name", .str "email"]),
   ("numeric", .arr [.str "age", .str "height", .str "email"]),
   ("nullable", .arr [.str "email", .str "height"])]

/-! Claim theorems. -/

/-- C2: the claim fails on the Builder variant.  With `maxBreadth = 1`, the
Builder compiles an AND node with two children without any exception, because
`Builder._build_sql_sequence` never calls `_validate_query_constraints` — no
breadth check runs at AND/OR nodes, contradicting the Builder docstring's
promise that an OR node wider than the breadth limit is rejected.  The
jsonquery variant does behave as claimed: the same tree fails with the
breadth-limit error (`ValueError('Breadth limit (1) exceeded')`), a node with
exactly `maxBreadth = 2` children compiles, and with three children it fails,
the check running at the logical node before its children are compiled. -/
theorem claim_C2 :
    Bld._build (bCfg ⟨1, 0, 0⟩) 5 (andNode [leafAge10, leafAge10]) 0 0
      = some (.ok (.and_ [.cmp "age" "==" (.num 10), .cmp "age" "==" (.num 10)], 3)) ∧
    Jq._build userModel ⟨1, 0, 0⟩ 5 (andNode [leafAge10, leafAge10]) 0 0
      = some (.error (.breadthLimit 1)) ∧
    Jq._build userModel ⟨2, 0, 0⟩ 5 (andNode [leafAge10, leafAge10]) 0 0
      = some (.ok (.and_ [.cmp "age" "==" (.num 10), .cmp "age" "==" (.num 10)], 3)) ∧
    Jq._build userModel ⟨2, 0, 0⟩ 5 (andNode [leafAge10, leafAge10, leafAge10]) 0 0
      = some (.error (.breadthLimit 2)) :=
  ⟨rfl, rfl, rfl, rfl⟩

/-- C3: the claim fails on both variants.  A tree whose node count equals
`maxElements` is rejected: the single-node tree `{age == 10}` with
`maxElements = 1` fails with the elements-limit error in both variants,
because the node is counted twice — once by the builder's `count += 1` and a
second time by the validator's local `count += element_breadth` (jsonquery) or
`count += 1` (Builder).  Compilation succeeds only from `maxElements = 2`
upward for this one-node tree. -/
theorem claim_C3 :
    Jq._build userModel ⟨0, 0, 1⟩ 5 leafAge10 0 0 = some (.error (.elementsLimit 1)) ∧
    Bld._build (bCfg ⟨0, 0, 1⟩) 5 leafAge10 0 0 = some (.error (.interrogateElements 1)) ∧
    Jq._build userModel ⟨0, 0, 2⟩ 5 leafAge10 0 0
      = some (.ok (.cmp "age" "==" (.num 10), 1)) ∧
    Bld._build (bCfg ⟨0, 0, 2⟩) 5 leafAge10 0 0
      = some (.ok (.cmp "age" "==" (.num 10), 1)) :=
  ⟨rfl, rfl, rfl, rfl⟩

/-- C4 counterexample: the claim, read on the code, is false at a tree of
exactly `maxDepth = 1` nested logical nodes.  In the jsonquery variant the
tree `{and: [{age == 10}]}` with `maxDepth = 1` does not compile: the
comparison leaf also occupies a nesting level, so the build fails with the
depth-limit error (this is exactly the behaviour pinned by
`test_depth_limit` in src/tests.py).  In the Builder variant the claim fails
in the other direction: with `maxDepth = 1`, a purely logical chain three
levels deep compiles without any exception, because
`Builder._build_sql_sequence` never calls `_validate_query_constraints`, so
adding a nesting level can never trigger the depth error there. -/
theorem claim_C4_counterexample :
    Jq._build userModel ⟨0, 1, 0⟩ 5 (andNode [leafAge10]) 0 0
      = some (.error (.depthLimit 1)) ∧
    Bld._build (bCfg ⟨0, 1, 0⟩) 9 (chainOf (andNode []) 2) 0 0
      = some (.ok (.and_ [.and_ [.and_ []]], 3)) :=
  ⟨rfl, rfl⟩

/-- C6: the claim fails on the string-column path.  For the non-nullable
string column `name` with a null value, the Builder does not raise any
validation error: `_build_column_string` calls
`_validate_nullable(value, column)` with the arguments swapped, so the check
never fires and the build proceeds through operator dispatch to a
`like(None)` predicate.  The numeric path behaves as claimed: a null value on
the non-nullable `age` fails with the nullability `ValueError`, and it does so
before operator dispatch (the same error fires even when the operator string
`<>` is not a recognized numeric operator), while the nullable column
`height` accepts a null value. -/
theorem claim_C6 :
    Bld._build (bCfg noLimits) 3 strNullNode 0 0
      = some (.ok (.strMatch "name" "like" .null, 1)) ∧
    Bld._build (bCfg noLimits) 3 numNullNode 0 0 = some (.error (.nullError "age")) ∧
    Bld._build (bCfg noLimits) 3 numNullBadOp 0 0 = some (.error (.nullError "age")) ∧
    Bld._build (bCfg noLimits) 3 numNullNullable 0 0
      = some (.ok (.cmp "height" "==" .null, 1)) :=
  ⟨rfl, rfl, rfl, rfl⟩

/-- C7: the claim fails on the exception type.  In each of the three cases —
missing model, missing logical-operator alias key, column in both the string
and numeric sets — `Builder.__init__` raises a plain `ValueError`, not
`IllegalConstraintException` (which src/exceptions.py defines but no code
under src/ ever raises); src/tests/builder_tests.py expects
`exceptions.IllegalConstraintException` in all three cases, so the code
contradicts its own tests.  Additionally, a role whose alias list is empty is
accepted: only the absence of the key is checked, not "at least one alias". -/
theorem claim_C7 :
    Bld.Builder.init none goodOps goodTcs none
      = .error (.valueError "Must provide a valid model.") ∧
    Bld.Builder.init (some userModel) opsMissingNot goodTcs none
      = .error (.valueError "Must specifiy aliases for all three logical operators.") ∧
    Bld.Builder.init (some userModel) goodOps dupTcs none
      = .error (.valueError "Specified two type constraints for the following: ") ∧
    Bld.Builder.init none goodOps goodTcs none ≠ .error .illegalConstraint ∧
    Bld.Builder.init (some userModel) opsEmptyAnd goodTcs none
      = .ok ⟨userModel, [], [.str "or"], [.str "not"],
          [.str "name", .str "email"], [.str "age", .str "height"],
          [.str "email", .str "height"], ⟨0, 0, 64⟩⟩ :=
  ⟨rfl, rfl, rfl, fun h => by injection h with h; exact Bld.BErr.noConfusion h, rfl⟩

/-- C8: the claim fails for `match-suffix`.  The transforms for
`match-prefix` (trailing wildcard), `match-any` (both sides) and
`match-strict` (unmodified) behave as claimed, and the transformed pattern is
applied with the case mode's match function (`like` for `strict`, `ilike` for
`ignore`).  But `match-suffix` raises `NameError`: its lambda calls
`_unicodeify`, an undefined name (the module defines `_unicodify`), so the
leading-wildcard pattern is never produced. -/
theorem claim_C8 :
    Bld._build (bCfg noLimits) 3 (strNode "match-prefix" "strict") 0 0
      = some (.ok (.strMatch "name" "like" (.str "World%"), 1)) ∧
    Bld._build (bCfg noLimits) 3 (strNode "match-any" "strict") 0 0
      = some (.ok (.strMatch "name" "like" (.str "%World%"), 1)) ∧
    Bld._build (bCfg noLimits) 3 (strNode "match-strict" "strict") 0 0
      = some (.ok (.strMatch "name" "like" (.str "World"), 1)) ∧
    Bld._build (bCfg noLimits) 3 (strNode "match-prefix" "ignore") 0 0
      = some (.ok (.strMatch "name" "ilike" (.str "World%"), 1)) ∧
    Bld._build (bCfg noLimits) 3 (strNode "match-suffix" "strict") 0 0
      = some (.error (.nameError "_unicodeify")) :=
  ⟨rfl, rfl, rfl, rfl, rfl⟩

/-- One unfolding step of the Builder build on a NOT node with the
non-sequence payload `{age == 10}` and no limits: the unary builder validates,
passes the sequence check, and then recurses on the whole node. -/
theorem bld_not_step (fuel count depth : Nat) :
    Bld._build (bCfg noLimits) (fuel + 1) (notNode leafAge10) count depth
      = (match Bld._build (bCfg noLimits) fuel (notNode leafAge10) (count + 1) (depth + 1) with
         | none => none
         | some (.error e) => some (.error e)
         | some (.ok (p, c)) => some (.ok (.not_ p, c))) := rfl

/-- C1: the claim fails on the Builder variant.  `Builder._build_sql_unary`
recurses on the whole NOT node instead of its `value` child (line 259 of
src/__init__.py), so with unbounded limits the compilation of
`{not: {age == 10}}` never terminates: for every amount of call-stack fuel the
run is still incomplete, and no predicate — in particular not the NOT of the
child's predicate — is ever produced.  The jsonquery variant behaves exactly
as claimed: it recurses once on the child and returns the `not_` combinator
applied to the child's compiled predicate. -/
theorem claim_C1 :
    (∀ fuel count depth : Nat,
      Bld._build (bCfg noLimits) fuel (notNode leafAge10) count depth = none) ∧
    Jq._build userModel noLimits 2 (notNode leafAge10) 0 0
      = some (.ok (.not_ (.cmp "age" "==" (.num 10)), 2)) := by
  refine ⟨fun fuel => ?_, rfl⟩
  induction fuel with
  | zero => intro count depth; rfl
  | succ n ih =>
    intro count depth
    rw [bld_not_step, ih (count + 1) (depth + 1)]

/-- C9: confirmed.  For every NOT node whose value is a sequence — any list of
children, at any threaded count and depth, with no structural limits in the
way — both variants abort with a `TypeError` and never unwrap the sequence:
the Builder raises its explicit
`TypeError('Cannot compare a column to a sequence')`, and the jsonquery
variant recurses into the list, whose subscription `value['value']` raises
`TypeError` (list indices must be integers). -/
theorem claim_C9 :
    ∀ (xs : List J) (count depth : Nat),
      Bld._build (bCfg noLimits) 1 (notNode (.arr xs)) count depth
        = some (.error .typeErrorSequence) ∧
      Jq._build userModel noLimits 2 (notNode (.arr xs)) count depth
        = some (.error .typeErrorIndex) :=
  fun _ _ _ => ⟨rfl, rfl⟩

/-- The accumulator loop of the sequence builders equals the
individually-compiled, left-to-right-threaded compilation of the children,
prefixed by the accumulator. -/
theorem seq_loop_eq {E : Type} (build : J → Nat → Nat → Option (Except E (Pred × Nat)))
    (depth : Nat) :
    ∀ (xs : List J) (acc : List Pred) (count : Nat),
      seq_loop build xs acc count depth
        = (match compileEach build xs count depth with
           | none => none
           | some (.error e) => some (.error e)
           | some (.ok (ps, c)) => some (.ok (acc ++ ps, c))) := by
  intro xs
  induction xs with
  | nil => intro acc count; simp [seq_loop, compileEach]
  | cons x xs ih =>
    intro acc count
    simp only [seq_loop, compileEach]
    cases hb : build x count depth with
    | none => rfl
    | some r =>
      cases r with
      | error e => rfl
      | ok pc =>
        obtain ⟨p, c⟩ := pc
        dsimp only
        rw [ih (acc ++ [p]) c]
        cases compileEach build xs c depth with
        | none => rfl
        | some r2 =>
          cases r2 with
          | error e => rfl
          | ok pc2 =>
            obtain ⟨ps, c2⟩ := pc2
            simp

/-- Combining `seq_loop_eq` with the final `func(*subqueries)` wrapper. -/
theorem seq_result_eq {E : Type} (build : J → Nat → Nat → Option (Except E (Pred × Nat)))
    (xs : List J) (count depth : Nat) (func : List Pred → Pred) :
    seqFinish func (seq_loop build xs [] count depth)
      = seqFinish func (compileEach build xs count depth) := by
  rw [seq_loop_eq build depth xs [] count]
  cases compileEach build xs count depth with
  | none => rfl
  | some r =>
    cases r with
    | error e => rfl
    | ok pc => simp [seqFinish]

/-- C5: confirmed for both variants.  Under configurations where the
structural limits do not interfere, compiling an AND (resp. OR) node with any
list of children equals individually compiling the children in input order
with the element count threaded left to right across siblings (`compileEach`,
each child one stack frame below the node) and combining the results with the
`and_` (resp. `or_`) combinator, in the same order. -/
theorem claim_C5 :
    ∀ (fuel : Nat) (xs : List J) (count depth : Nat),
      (Jq._build userModel noLimits (fuel + 1) (andNode xs) count depth
        = seqFinish .and_ (compileEach (fun y c d => Jq._build userModel noLimits fuel y c d)
            xs (count + 1) (depth + 1))) ∧
      (Jq._build userModel noLimits (fuel + 1) (orNode xs) count depth
        = seqFinish .or_ (compileEach (fun y c d => Jq._build userModel noLimits fuel y c d)
            xs (count + 1) (depth + 1))) ∧
      (Bld._build (bCfg noLimits) (fuel + 1) (andNode xs) count depth
        = seqFinish .and_ (compileEach (fun y c d => Bld._build (bCfg noLimits) fuel y c d)
            xs (count + 1) (depth + 1))) ∧
      (Bld._build (bCfg noLimits) (fuel + 1) (orNode xs) count depth
        = seqFinish .or_ (compileEach (fun y c d => Bld._build (bCfg noLimits) fuel y c d)
            xs (count + 1) (depth + 1))) := by
  intro fuel xs count depth
  refine ⟨?_, ?_, ?_, ?_⟩
  · rw [show Jq._build userModel noLimits (fuel + 1) (andNode xs) count depth
        = seqFinish .and_ (seq_loop (fun y c d => Jq._build userModel noLimits fuel y c d)
            xs [] (count + 1) (depth + 1)) from rfl]
    exact seq_result_eq (fun y c d => Jq._build userModel noLimits fuel y c d) xs
      (count + 1) (depth + 1) .and_
  · rw [show Jq._build userModel noLimits (fuel + 1) (orNode xs) count depth
        = seqFinish .or_ (seq_loop (fun y c d => Jq._build userModel noLimits fuel y c d)
            xs [] (count + 1) (depth + 1)) from rfl]
    exact seq_result_eq (fun y c d => Jq._build userModel noLimits fuel y c d) xs
      (count + 1) (depth + 1) .or_
  · rw [show Bld._build (bCfg noLimits) (fuel + 1) (andNode xs) count depth
        = seqFinish .and_ (seq_loop (fun y c d => Bld._build (bCfg noLimits) fuel y c d)
            xs [] (count + 1) (depth + 1)) from rfl]
    exact seq_result_eq (fun y c d => Bld._build (bCfg noLimits) fuel y c d) xs
      (count + 1) (depth + 1) .and_
  · rw [show Bld._build (bCfg noLimits) (fuel + 1) (orNode xs) count depth
        = seqFinish .or_ (seq_loop (fun y c d => Bld._build (bCfg noLimits) fuel y c d)
            xs [] (count + 1) (depth + 1)) from rfl]
    exact seq_result_eq (fun y c d => Bld._build (bCfg noLimits) fuel y c d) xs
      (count + 1) (depth + 1) .or_

/-- `Jq._build_column` only ever produces a single comparison predicate. -/
theorem jq_build_column_size (model : List String) (node : J) (p : Pred)
    (h : Jq._build_column model node = .ok p) : predSize p = 1 := by
  unfold Jq._build_column at h
  iterate 10 (all_goals try split at h)
  all_goals first
  | (simp_all [predSize]; done)
  | (simp only [Except.ok.injEq] at h; rw [← h]; simp [predSize])

/-- If every successful child build adds exactly the size of its predicate to
the threaded count, then so does the sequence loop, appending its results to
the accumulator. -/
theorem seq_loop_size {E : Type} (build : J → Nat → Nat → Option (Except E (Pred × Nat)))
    (H : ∀ y cy dy q cq, build y cy dy = some (.ok (q, cq)) → cq = cy + predSize q) :
    ∀ (xs : List J) (acc : List Pred) (count depth : Nat) (ps : List Pred) (c2 : Nat),
      seq_loop build xs acc count depth = some (.ok (ps, c2)) →
      ∃ qs, ps = acc ++ qs ∧ c2 = count + predSizeList qs := by
  intro xs
  induction xs with
  | nil =>
    intro acc count depth ps c2 h
    simp only [seq_loop, Option.some.injEq, Except.ok.injEq, Prod.mk.injEq] at h
    obtain ⟨h1, h2⟩ := h
    exact ⟨[], by simp [h1], by simp [predSizeList, h2]⟩
  | cons x xs ih =>
    intro acc count depth ps c2 h
    simp only [seq_loop] at h
    cases hb : build x count depth with
    | none => rw [hb] at h; simp at h
    | some r =>
      cases r with
      | error e => rw [hb] at h; simp at h
      | ok pc =>
        obtain ⟨q, cq⟩ := pc
        rw [hb] at h
        dsimp only at h
        obtain ⟨qs, hps, hc2⟩ := ih (acc ++ [q]) cq depth ps c2 h
        refine ⟨q :: qs, by simp [hps], ?_⟩
        have hq := H x count depth q cq hb
        simp only [predSizeList] at hc2 ⊢
        omega

/-- C10: confirmed.  In the jsonquery variant, whenever a build succeeds, the
element count returned alongside the predicate exceeds the incoming count by
exactly the node count of the compiled predicate tree — each `_build` call
contributes exactly one predicate node and adds exactly 1 to the threaded
count, and the `count += element_breadth` inside
`_validate_query_constraints` only changes a local copy that is never
propagated back.  This holds for every model, every constraint configuration,
every fuel and every starting count and depth. -/
theorem claim_C10 :
    ∀ (model : List String) (c : Constraints) (fuel : Nat) (node : J)
      (count depth : Nat) (p : Pred) (count2 : Nat),
      Jq._build model c fuel node count depth = some (.ok (p, count2)) →
      count2 = count + predSize p := by
  intro model c fuel
  induction fuel with
  | zero =>
    intro node count depth p c2 h
    exact absurd h (by simp [Jq._build])
  | succ n ih =>
    intro node count depth p c2 h
    simp only [Jq._build] at h
    split at h
    · simp at h
    · split at h
      · simp at h
      · split at h
        · simp at h
        · split at h
          · -- AND branch
            simp only [Jq._build_sql_sequence] at h
            split at h
            · simp at h
            · cases hs : seq_loop (Jq._build model c n) _ [] (count + 1) (depth + 1) with
              | none => rw [hs] at h; simp [seqFinish] at h
              | some r =>
                cases r with
                | error e => rw [hs] at h; simp [seqFinish] at h
                | ok pc =>
                  obtain ⟨ps, cc⟩ := pc
                  rw [hs] at h
                  simp only [seqFinish, Option.some.injEq, Except.ok.injEq,
                    Prod.mk.injEq] at h
                  obtain ⟨hp, hc⟩ := h
                  obtain ⟨qs, hqs, hcc⟩ :=
                    seq_loop_size (Jq._build model c n)
                      (fun y cy dy q cq hb => ih y cy dy q cq hb)
                      _ [] (count + 1) (depth + 1) ps cc hs
                  subst hp hqs
                  simp only [List.nil_append] at *
                  simp only [predSize]
                  omega
          · split at h
            · -- OR branch
              simp only [Jq._build_sql_sequence] at h
              split at h
              · simp at h
              · cases hs : seq_loop (Jq._build model c n) _ [] (count + 1) (depth + 1) with
                | none => rw [hs] at h; simp [seqFinish] at h
                | some r =>
                  cases r with
                  | error e => rw [hs] at h; simp [seqFinish] at h
                  | ok pc =>
                    obtain ⟨ps, cc⟩ := pc
                    rw [hs] at h
                    simp only [seqFinish, Option.some.injEq, Except.ok.injEq,
                      Prod.mk.injEq] at h
                    obtain ⟨hp, hc⟩ := h
                    obtain ⟨qs, hqs, hcc⟩ :=
                      seq_loop_size (Jq._build model c n)
                        (fun y cy dy q cq hb => ih y cy dy q cq hb)
                        _ [] (count + 1) (depth + 1) ps cc hs
                    subst hp hqs
                    simp only [List.nil_append] at *
                    simp only [predSize]
                    omega
            · split at h
              · -- NOT branch
                simp only [Jq._build_sql_unary] at h
                cases hb : Jq._build model c n _ (count + 1) (depth + 1) with
                | none => rw [hb] at h; simp at h
                | some r =>
                  cases r with
                  | error e => rw [hb] at h; simp at h
                  | ok pc =>
                    obtain ⟨q, cq⟩ := pc
                    rw [hb] at h
                    simp only [Option.some.injEq, Except.ok.injEq, Prod.mk.injEq] at h
                    obtain ⟨hp, hc⟩ := h
                    have := ih _ (count + 1) (depth + 1) q cq hb
                    subst hp
                    simp only [predSize]
                    omega
              · -- column branch
                split at h
                · simp at h
                · rename_i q hq
                  simp only [Option.some.injEq, Except.ok.injEq, Prod.mk.injEq] at h
                  obtain ⟨hp, hc⟩ := h
                  have hsz := jq_build_column_size model node q hq
                  rw [← hp]
                  omega

/-- The C10 property checked on a concrete run: compiling
`{not: {age == 10}}` returns count 2, the node count of the compiled
predicate. -/
theorem claim_C10_witness :
    (2 : Nat) = 0 + predSize (Pred.not_ (Pred.cmp "age" "==" (J.num 10))) :=
  claim_C10 userModel noLimits 2 (notNode leafAge10) 0 0
    (Pred.not_ (Pred.cmp "age" "==" (J.num 10))) 2 rfl

/-- With only `max_depth` set, the jsonquery validator reduces to the depth
check. -/
theorem jq_validate_dm (value : J) (c d md : Nat) :
    Jq._validate_query_constraints value c d ⟨0, md, 0⟩
      = if md ≠ 0 ∧ d > md then .error (.depthLimit md) else .ok () := by
  by_cases hd : md ≠ 0 ∧ d > md
  · simp [Jq._validate_query_constraints, hd]
  · simp [Jq._validate_query_constraints, hd]

/-- One unfolding step of the jsonquery build on a single-child AND node with
only `max_depth` set: validate this node, then run the child loop one stack
frame below. -/
theorem jq_and1_step (model : List String) (md f c d : Nat) (y : J) :
    Jq._build model ⟨0, md, 0⟩ (f + 1) (andNode [y]) c d
      = (match Jq._validate_query_constraints (.arr [y]) (c + 1) (d + 1) ⟨0, md, 0⟩ with
         | .error e => some (.error e)
         | .ok _ =>
           seqFinish .and_
             (seq_loop (Jq._build model ⟨0, md, 0⟩ f) [y] [] (c + 1) (d + 1))) :=
  rfl

/-- Building the comparison leaf `{age == 10}` with only `max_depth` set:
depth-limit error iff its level exceeds `max_depth`, else one comparison
predicate and one count. -/
theorem jq_leaf_step (md : Nat) :
    ∀ f c d : Nat,
      Jq._build userModel ⟨0, md, 0⟩ (f + 1) leafAge10 c d
        = if md ≠ 0 ∧ d + 1 > md then some (.error (.depthLimit md))
          else some (.ok (.cmp "age" "==" (.num 10), c + 1)) := by
  intro f c d
  rw [show Jq._build userModel ⟨0, md, 0⟩ (f + 1) leafAge10 c d
      = (match Jq._validate_query_constraints (.num 10) (c + 1) (d + 1) ⟨0, md, 0⟩ with
         | .error e => some (.error e)
         | .ok _ => some (.ok (.cmp "age" "==" (.num 10), c + 1))) from rfl]
  rw [jq_validate_dm]
  by_cases hd : md ≠ 0 ∧ d + 1 > md
  · rw [if_pos hd, if_pos hd]
  · rw [if_neg hd, if_neg hd]

/-- Building the childless AND node `{and: []}` with only `max_depth` set:
depth-limit error iff its level exceeds `max_depth`, else an empty conjunction
and one count. -/
theorem jq_empty_and_step (md : Nat) :
    ∀ f c d : Nat,
      Jq._build userModel ⟨0, md, 0⟩ (f + 1) (andNode []) c d
        = if md ≠ 0 ∧ d + 1 > md then some (.error (.depthLimit md))
          else some (.ok (.and_ [], c + 1)) := by
  intro f c d
  rw [show Jq._build userModel ⟨0, md, 0⟩ (f + 1) (andNode []) c d
      = (match Jq._validate_query_constraints (.arr []) (c + 1) (d + 1) ⟨0, md, 0⟩ with
         | .error e => some (.error e)
         | .ok _ => some (.ok (.and_ [], c + 1))) from rfl]
  rw [jq_validate_dm]
  by_cases hd : md ≠ 0 ∧ d + 1 > md
  · rw [if_pos hd, if_pos hd]
  · rw [if_neg hd, if_neg hd]

/-- The sequence loop on a singleton child list: build the child once and
append its predicate to the accumulator. -/
theorem seq_loop_one {E : Type} (build : J → Nat → Nat → Option (Except E (Pred × Nat)))
    (y : J) (acc : List Pred) (count depth : Nat) :
    seq_loop build [y] acc count depth
      = (match build y count depth with
         | none => none
         | some (.error e) => some (.error e)
         | some (.ok (p, c)) => some (.ok (acc ++ [p], c))) := by
  cases hb : build y count depth with
  | none => simp [seq_loop, hb]
  | some r =>
    cases r with
    | error e => simp [seq_loop, hb]
    | ok pc =>
      obtain ⟨p, c⟩ := pc
      simp [seq_loop, hb]

/-- Running the jsonquery build on a chain of `m` nested single-child AND
nodes around a base node, with only `max_depth` set: depth-limit error as
soon as some level exceeds `max_depth`, else `m` nested singleton
conjunctions around the base's predicate, with `m + 1` added to the count. -/
theorem jq_chain_run (model : List String) (md : Nat) (base : J) (bp : Pred)
    (hbase : ∀ f c d : Nat,
      Jq._build model ⟨0, md, 0⟩ (f + 1) base c d
        = if md ≠ 0 ∧ d + 1 > md then some (.error (.depthLimit md))
          else some (.ok (bp, c + 1))) :
    ∀ m f c d : Nat,
      Jq._build model ⟨0, md, 0⟩ (f + m + 1) (chainOf base m) c d
        = if md ≠ 0 ∧ d + m + 1 > md then some (.error (.depthLimit md))
          else some (.ok (nestAnd bp m, c + m + 1)) := by
  intro m
  induction m with
  | zero =>
    intro f c d
    simpa [chainOf, nestAnd] using hbase f c d
  | succ k ih =>
    intro f c d
    rw [show Jq._build model ⟨0, md, 0⟩ (f + (k + 1) + 1) (chainOf base (k + 1)) c d
        = Jq._build model ⟨0, md, 0⟩ ((f + k + 1) + 1) (andNode [chainOf base k]) c d
        from rfl]
    rw [jq_and1_step model md (f + k + 1) c d (chainOf base k)]
    rw [jq_validate_dm]
    by_cases h1 : md ≠ 0 ∧ d + 1 > md
    · rw [if_pos h1, if_pos (show md ≠ 0 ∧ d + (k + 1) + 1 > md by omega)]
    · rw [if_neg h1]
      show seqFinish Pred.and_
          (seq_loop (Jq._build model ⟨0, md, 0⟩ (f + k + 1)) [chainOf base k] []
            (c + 1) (d + 1)) = _
      rw [seq_loop_one]
      rw [ih f (c + 1) (d + 1)]
      by_cases h2 : md ≠ 0 ∧ d + 1 + k + 1 > md
      · rw [if_pos h2, if_pos (show md ≠ 0 ∧ d + (k + 1) + 1 > md by omega)]
        rfl
      · rw [if_neg h2, if_neg (show ¬(md ≠ 0 ∧ d + (k + 1) + 1 > md) by omega)]
        show some (Except.ok (Pred.and_ [nestAnd bp k], c + 1 + k + 1))
            = some (Except.ok (nestAnd bp (k + 1), c + (k + 1) + 1))
        rw [show c + 1 + k + 1 = c + (k + 1) + 1 by omega]
        rfl

/-- C4 amended: in the jsonquery variant every node — logical or comparison —
occupies one nesting level (the root at level 1) and the depth check runs at
every node.  A chain of exactly `maxDepth` nested logical AND nodes with no
deeper payload compiles and one additional nesting level fails with the
depth-limit `ValueError` (third and fourth conjuncts, with
`maxDepth = m + 1` logical nodes); when the innermost payload is a comparison
leaf, the leaf occupies the final level, so exactly `maxDepth - 1` nested
logical nodes around it is the compiling boundary (first and second
conjuncts). -/
theorem claim_C4_amended :
    ∀ m : Nat,
      (Jq._build userModel ⟨0, m + 1, 0⟩ (m + 2) (chainOf leafAge10 m) 0 0
        = some (.ok (nestAnd (.cmp "age" "==" (.num 10)) m, m + 1))) ∧
      (Jq._build userModel ⟨0, m + 1, 0⟩ (m + 3) (chainOf leafAge10 (m + 1)) 0 0
        = some (.error (.depthLimit (m + 1)))) ∧
      (Jq._build userModel ⟨0, m + 1, 0⟩ (m + 3) (chainOf (andNode []) m) 0 0
        = some (.ok (nestAnd (.and_ []) m, m + 1))) ∧
      (Jq._build userModel ⟨0, m + 1, 0⟩ (m + 4) (chainOf (andNode []) (m + 1)) 0 0
        = some (.error (.depthLimit (m + 1)))) := by
  intro m
  refine ⟨?_, ?_, ?_, ?_⟩
  · have h := jq_chain_run userModel (m + 1) leafAge10 (.cmp "age" "==" (.num 10))
      (jq_leaf_step (m + 1)) m 1 0 0
    rw [show (1 : Nat) + m + 1 = m + 2 by omega] at h
    rw [if_neg (show ¬((m + 1 : Nat) ≠ 0 ∧ 0 + m + 1 > m + 1) by omega)] at h
    rw [show (0 : Nat) + m + 1 = m + 1 by omega] at h
    exact h
  · have h := jq_chain_run userModel (m + 1) leafAge10 (.cmp "age" "==" (.num 10))
      (jq_leaf_step (m + 1)) (m + 1) 1 0 0
    rw [show (1 : Nat) + (m + 1) + 1 = m + 3 by omega] at h
    rw [if_pos (show (m + 1 : Nat) ≠ 0 ∧ 0 + (m + 1) + 1 > m + 1 by omega)] at h
    exact h
  · have h := jq_chain_run userModel (m + 1) (andNode []) (.and_ [])
      (jq_empty_and_step (m + 1)) m 2 0 0
    rw [show (2 : Nat) + m + 1 = m + 3 by omega] at h
    rw [if_neg (show ¬((m + 1 : Nat) ≠ 0 ∧ 0 + m + 1 > m + 1) by omega)] at h
    rw [show (0 : Nat) + m + 1 = m + 1 by omega] at h
    exact h
  · have h := jq_chain_run userModel (m + 1) (andNode []) (.and_ [])
      (jq_empty_and_step (m + 1)) (m + 1) 2 0 0
    rw [show (2 : Nat) + (m + 1) + 1 = m + 4 by omega] at h
    rw [if_pos (show (m + 1 : Nat) ≠ 0 ∧ 0 + (m + 1) + 1 > m + 1 by omega)] at h
    exact h

end Jsonquery
